import Mathlib

/-! ## Verification of the AI podcast generator pipeline (`src/index.ts`)

Shallow embedding of the generation pipeline of the MCP ElevenLabs podcast
server: script segmentation (`parseScriptSegments`), audio chunk assembly,
duration estimation, the episode state machine driven by `generate_podcast` /
`generatePodcastScript` / `generatePodcastAudio`, and the `get_podcast_script`
tool.  External effects (the Workers-AI text generation call, the per-turn
ElevenLabs synthesis calls, the R2 blob put and the D1 relational writes) are
modelled by an explicit environment (`Env`) recording the outcome of each
call, and the database by an explicit `World` state that also logs every
episode-row write.
-/

namespace Podcast

set_option maxRecDepth 8192

/-- The JavaScript regex class `\s` (also the character set removed by
`String.prototype.trim`): space, tab, LF, VT, FF, CR, NBSP, the Unicode
space separators U+2000-U+200A, LS, PS, NNBSP, MMSP, ideographic space and
the BOM, written by code point. -/
def isJsWhitespace (c : Char) : Bool :=
  c.toNat == 0x20 || c.toNat == 0x09 || c.toNat == 0x0a || c.toNat == 0x0b ||
  c.toNat == 0x0c || c.toNat == 0x0d || c.toNat == 0xa0 ||
  c.toNat == 0x1680 ||
  (decide (0x2000 ≤ c.toNat) && decide (c.toNat ≤ 0x200a)) ||
  c.toNat == 0x2028 || c.toNat == 0x2029 || c.toNat == 0x202f ||
  c.toNat == 0x205f || c.toNat == 0x3000 || c.toNat == 0xfeff

/-- JavaScript line terminators (the characters the regex `.` does NOT
match): LF, CR, LS, PS. -/
def isLineTerminator (c : Char) : Bool :=
  c.toNat == 0x0a || c.toNat == 0x0d || c.toNat == 0x2028 ||
  c.toNat == 0x2029

/-- The effect of `String.prototype.trim` on the character list of a
string: drop
JS whitespace from both ends. -/
def jsTrimL (cs : List Char) : List Char :=
  (cs.dropWhile isJsWhitespace).rdropWhile isJsWhitespace

/-- The JavaScript `String.prototype.trim`. -/
def jsTrim (s : String) : String := String.mk (jsTrimL s.data)

/-- One parsed speaker segment (`{ speaker, text }` in `parseScriptSegments`). -/
structure Segment where
  speaker : String
  text : String
deriving DecidableEq, Repr

/-- The persona alternative `^(Maya|Jordan):` of the segment regex: if the
line starts with `Maya:` or `Jordan:` return the persona and the rest of the
line, otherwise fail. -/
def personaHead (cs : List Char) : Option (String × List Char) :=
  if cs.take 5 = "Maya:".data then some ("Maya", cs.drop 5)
  else if cs.take 7 = "Jordan:".data then some ("Jordan", cs.drop 7)
  else none

/-- The tail `\s*(.+)$` of the segment regex, applied to the rest of a line
(which, coming from a split on `'\n'`, contains no `'\n'`), with JavaScript
backtracking semantics: the greedy `\s*` yields back just enough for `.+` to
match at least one non-line-terminator character ending at the end of the
string.  Returns the text captured by `(.+)`. -/
def matchTail (r : List Char) : Option (List Char) :=
  let t := r.dropWhile isJsWhitespace
  if t.isEmpty then
    match r.getLast? with
    | none => none
    | some c => if isLineTerminator c then none else some [c]
  else if t.all (fun c => !(isLineTerminator c)) then some t else none

/-- One step `line.match(/^(Maya|Jordan):\s*(.+)$/)` followed by
`{ speaker: match[1], text: match[2].trim() }`. -/
def lineToSegment (cs : List Char) : Option Segment :=
  match personaHead cs with
  | none => none
  | some (p, rest) =>
    match matchTail rest with
    | none => none
    | some t => some ⟨p, String.mk (jsTrimL t)⟩

/-- The body of `parseScriptSegments` on the character list: split the
script on `'\n'`,
keep the lines with non-empty trim, and collect the lines matching the
persona regex in order. -/
def parseScriptSegmentsL (cs : List Char) : List Segment :=
  ((cs.splitOn '\n').filter (fun l => !(jsTrimL l).isEmpty)).filterMap
    lineToSegment

/-- The function `parseScriptSegments(script)` from `src/index.ts`. -/
def parseScriptSegments (s : String) : List Segment :=
  parseScriptSegmentsL s.data

example : parseScriptSegments "Maya: hi\nJordan: yo" =
    [⟨"Maya", "hi"⟩, ⟨"Jordan", "yo"⟩] := by decide

example : parseScriptSegments "Maya:   " = [⟨"Maya", ""⟩] := by decide

example : parseScriptSegments "Maya:" = [] := by decide

example : parseScriptSegments "narrator: x\n\nJordan:  ok " =
    [⟨"Jordan", "ok"⟩] := by decide

example : parseScriptSegments "Error generating script" = [] := by decide

/-! ## Audio chunk assembly (lines 367-374 and 385-398 of `src/index.ts`) -/

/-- The write `target.set(chunk, offset)` on a buffer large enough to hold
the chunk:
overwrite the positions `offset ..< offset + chunk.length`. -/
def writeAt (arr : List Nat) (offset : Nat) (chunk : List Nat) : List Nat :=
  arr.take offset ++ chunk ++ arr.drop (offset + chunk.length)

/-- The copy loop `for (const chunk of chunks) { out.set(chunk, offset);
offset += chunk.length }`. -/
def copyLoop : List (List Nat) → List Nat → Nat → List Nat
  | [], arr, _ => arr
  | c :: cs, arr, offset => copyLoop cs (writeAt arr offset c) (offset + c.length)

/-- Allocate a zero-filled buffer of the total length and copy each chunk at
its running offset — the concatenation pattern used both to drain one
synthesis stream (lines 367-374) and to combine the per-segment chunks
(lines 393-398). -/
def concatBytes (chunks : List (List Nat)) : List Nat :=
  copyLoop chunks (List.replicate ((chunks.map List.length).sum) 0) 0

/-- Lines 385-398: compute the total size, treat a zero total as fatal
(`throw new Error("No audio data generated")`), otherwise produce the
copied concatenation. -/
def assembleAudio (chunks : List (List Nat)) : Option (List Nat) :=
  let totalSize := (chunks.map List.length).sum
  if totalSize = 0 then none else some (concatBytes chunks)

example : assembleAudio [[1, 2], [3], [4, 5, 6]] = some [1, 2, 3, 4, 5, 6] := by
  decide

/-! ## Duration estimation (line 417 of `src/index.ts`) -/

/-- The count `script.split(" ").length`: the number of fields obtained by
splitting on
every single space character — empty fields count, so this is the number of
spaces plus one, not the number of words. -/
def spaceFieldCount (s : String) : Nat := (s.data.splitOn ' ').length

/-- The estimate `Math.floor(script.split(" ").length / 2.5)`; since
`2.5 = 5/2` and the
operands are small integers, the JS float floor equals natural division of
`2 * fields` by `5`. -/
def estimatedDurationOf (script : String) : Nat :=
  2 * spaceFieldCount script / 5

/-- The script's word count in the sense of the specification: the number of
non-empty space-separated words. -/
def specWordCount (s : String) : Nat :=
  ((s.data.splitOn ' ').filter (fun w => !w.isEmpty)).length

/-- The specification's duration formula `floor(word_count / 2.5)`. -/
def specDuration (s : String) : Nat := 2 * specWordCount s / 5

example : estimatedDurationOf "a b c" = 1 := by decide
example : estimatedDurationOf "a  b" = 1 := by decide
example : specDuration "a  b" = 0 := by decide

/-! ## Data model (`src/db/schema.ts`) and persistence state -/

/-- The `status` column of `episodes`: enum `generating | completed |
failed`, default `generating`. -/
inductive Status where
  | generating
  | completed
  | failed
deriving DecidableEq, Repr

/-- The claim-relevant columns of one `episodes` row (id, source content and
timestamps carry no constrained state and are omitted; the id is passed to
the pipeline separately). -/
structure Episode where
  title : String
  description : String
  script : String
  status : Status
  audioFileKey : Option String
  durationSeconds : Option Nat
deriving DecidableEq, Repr

/-- Persistence state threaded through one `generate_podcast` call: the
episode row, the log of every write of that row (creation and each
`db.update`, in order), and the R2 object stored under the episode's audio
key. -/
structure World where
  episode : Episode
  history : List Episode
  blob : Option (List Nat)
deriving DecidableEq, Repr

/-- Perform one relational write of the episode row: replace the row and log
the written value. -/
def writeEpisode (w : World) (e : Episode) : World :=
  { w with episode := e, history := w.history ++ [e] }

/-- Outcomes of the external calls made during one `generate_podcast`
invocation.  Relational writes and the R2 put either succeed or throw
(modelled as a `Bool`); the AI call either throws or returns a response in
which the `response` field may be absent; the `i`-th ElevenLabs `convert`
call either throws or yields the list of chunks read from its stream. -/
structure Env where
  genReqInsertOk : Bool
  aiResult : Except String (Option String)
  scriptWriteOk : Bool
  scriptFailWriteOk : Bool
  ttsChunks : Nat → Except String (List (List Nat))
  r2PutOk : Bool
  completedWriteOk : Bool
  audioFailWriteOk : Bool

/-- The `content_type` enum of the tool input. -/
inductive ContentType where
  | code
  | file
  | discussion
  | project
deriving DecidableEq, Repr

/-- Rendering of `content_type` used in the default title and description. -/
def ContentType.text : ContentType → String
  | .code => "code"
  | .file => "file"
  | .discussion => "discussion"
  | .project => "project"

/-- Validated input of the `generate_podcast` tool. -/
structure SubmitArgs where
  content : String
  contentType : ContentType
  title : Option String
  focusAreas : Option (List String)
deriving DecidableEq, Repr

/-- The audio key `podcasts/{episodeId}.mp3`. -/
def audioKeyOf (episodeId : String) : String :=
  "podcasts/" ++ episodeId ++ ".mp3"

/-- The per-persona voice table: Maya's voice for Maya, Jordan's otherwise
(line 344). -/
def voiceIdFor (speaker : String) : String :=
  if speaker = "Maya" then "EXAVITQu4vr4xnSDxMaL" else "pNInz6obpgDQGcFmaJgB"

/-! ## The pipeline -/

/-- The per-segment synthesis loop (lines 340-383): call the ElevenLabs
`convert` for each segment in order; any failure propagates immediately
(`throw segmentError`); a success drains the stream and concatenates the
read chunks into that segment's audio data. -/
def synthAll (env : Env) : Nat → List Segment → Except String (List (List Nat))
  | _, [] => .ok []
  | i, _ :: rest =>
    match env.ttsChunks i with
    | .error e => .error e
    | .ok chunks =>
      match synthAll env (i + 1) rest with
      | .error e => .error e
      | .ok tail => .ok (concatBytes chunks :: tail)

/-- The `catch` block of `generatePodcastAudio` (lines 431-441): try to write
`status = failed`; if that write itself throws, the exception propagates to
the caller. -/
def audioFail (env : Env) (w : World) (_msg : String) :
    World × Except String Bool :=
  if env.audioFailWriteOk then
    (writeEpisode w { w.episode with status := .failed }, .ok false)
  else (w, .error "db error")

/-- The function `generatePodcastAudio(env, episodeId, script)`
(lines 322-442): parse the
script into segments (zero segments is fatal), synthesize each in order,
combine the chunks (zero total size is fatal), put the result in R2, and
write the completed row with the audio key and estimated duration; any
exception is caught and answered with a `status = failed` write.  Returns
the updated world and `ok success` (or the propagated exception when the
failure write itself throws). -/
def generatePodcastAudio (env : Env) (episodeId : String) (w : World)
    (script : String) : World × Except String Bool :=
  let segments := parseScriptSegments script
  if segments.length = 0 then audioFail env w "No segments found in script"
  else
    match synthAll env 0 segments with
    | .error e => audioFail env w e
    | .ok audioChunks =>
      let totalSize := (audioChunks.map List.length).sum
      if totalSize = 0 then audioFail env w "No audio data generated"
      else
        let finalAudio := concatBytes audioChunks
        if !env.r2PutOk then audioFail env w "r2 error"
        else
          let w1 : World := { w with blob := some finalAudio }
          if !env.completedWriteOk then audioFail env w1 "db error"
          else
            (writeEpisode w1
              { w1.episode with
                status := .completed
                audioFileKey := some (audioKeyOf episodeId)
                durationSeconds := some (estimatedDurationOf script) },
              .ok true)

/-- The fallback `aiResponse.response || "Error generating script"`
(line 291): the JS
`||` substitutes the fallback both when the field is absent and when it is
the (falsy) empty string. -/
def scriptOfResp : Option String → String
  | none => "Error generating script"
  | some s => if s = "" then "Error generating script" else s

/-- The function `generatePodcastScript(env, episodeId, ...)`
(lines 233-319): run the AI
call; substitute `"Error generating script"` for an absent or empty
response; write the script checkpoint; run `generatePodcastAudio` and
**ignore its result**, returning `{ success: true }`; any exception is
caught and answered with a `status = failed` write and `{ success: false }`
(the failure write itself throwing propagates). -/
def generatePodcastScript (env : Env) (episodeId : String) (w : World) :
    World × Except String Bool :=
  match env.aiResult with
  | .error e =>
    if env.scriptFailWriteOk then
      (writeEpisode w { w.episode with status := .failed }, .ok false)
    else (w, .error e)
  | .ok resp =>
    let script := scriptOfResp resp
    if !env.scriptWriteOk then
      if env.scriptFailWriteOk then
        (writeEpisode w { w.episode with status := .failed }, .ok false)
      else (w, .error "db error")
    else
      let w1 := writeEpisode w { w.episode with script := script }
      match generatePodcastAudio env episodeId w1 script with
      | (w2, .ok _) => (w2, .ok true)
      | (w2, .error e) =>
        if env.scriptFailWriteOk then
          (writeEpisode w2 { w2.episode with status := .failed }, .ok false)
        else (w2, .error e)

/-- The value returned by the `generate_podcast` tool: either the JSON
payload `{episode_id, status, message, audio_url}` or the `catch` branch's
error text. -/
inductive ToolOut where
  | payload (episodeId status message : String) (audioUrl : Option String)
  | errText (msg : String)
deriving DecidableEq, Repr

/-- The episode row created by the insert at lines 47-52: default or given
title, generated description, empty script, status `generating`, audio and
duration unset. -/
def initEpisode (args : SubmitArgs) : Episode :=
  { title := args.title.getD ("AI Podcast: " ++ args.contentType.text ++ " Analysis")
    description := "Generated podcast discussing " ++ args.contentType.text ++ " content"
    script := ""
    status := .generating
    audioFileKey := none
    durationSeconds := none }

/-- The persistence state right after the episode row is created. -/
def initWorld (args : SubmitArgs) : World :=
  { episode := initEpisode args, history := [initEpisode args], blob := none }

/-- The `generate_podcast` tool handler (lines 36-86), for a call in which
the episode row insert itself succeeds: create the episode row (status
`generating`, empty script), insert the generation request (a failure there
is caught by the outer `catch`, which reports an error **without** touching
the episode), run `generatePodcastScript`, and render the payload from its
`success` flag. -/
def submitGeneration (env : Env) (episodeId : String) (args : SubmitArgs) :
    World × ToolOut :=
  let w0 := initWorld args
  if !env.genReqInsertOk then
    (w0, .errText "Error generating podcast: db error")
  else
    match generatePodcastScript env episodeId w0 with
    | (w1, .ok success) =>
      (w1, .payload episodeId
        (if success then "completed" else "failed")
        (if success then "Podcast generated successfully!" else "error")
        (if success then some ("/audio/" ++ episodeId) else none))
    | (w1, .error e) =>
      (w1, .errText ("Error generating podcast: " ++ e))

/-- The result of the `get_podcast_script` tool: a text content or an
`isError` content. -/
inductive ScriptOut where
  | text (s : String)
  | errText (s : String)
deriving DecidableEq, Repr

/-- The `get_podcast_script` tool handler (lines 190-227) on the looked-up
row: `Episode not found` for an unknown id, otherwise
`episode.script || "Script not yet generated"` (the placeholder exactly when
the stored script is the empty string, `script` being a NOT NULL column). -/
def getPodcastScript : Option Episode → ScriptOut
  | none => .errText "Episode not found"
  | some ep => .text (if ep.script = "" then "Script not yet generated" else ep.script)

/-- The episode-row invariant of the specification: audio reference and
duration are present exactly when the status is `completed`. -/
def invB (e : Episode) : Bool :=
  (e.audioFileKey.isSome == decide (e.status = .completed)) &&
  (e.durationSeconds.isSome == decide (e.status = .completed))

/-- A sample validated tool input, used in concrete instantiations. -/
def sampleArgs : SubmitArgs :=
  { content := "some content"
    contentType := .code
    title := none
    focusAreas := none }

/-- An environment in which every external call succeeds. -/
def envAllOk : Env :=
  { genReqInsertOk := true
    aiResult := .ok (some "Maya: hi\nJordan: yo")
    scriptWriteOk := true
    scriptFailWriteOk := true
    ttsChunks := fun _ => .ok [[1, 2]]
    r2PutOk := true
    completedWriteOk := true
    audioFailWriteOk := true }

/-- A 250-word single-spaced script. -/
def script250 : String := String.intercalate " " (List.replicate 250 "word")

/-! ## Lemmas about the byte concatenation -/

theorem copyLoop_spec (cs : List (List Nat)) (pre zs : List Nat)
    (hz : zs.length = (cs.map List.length).sum) :
    copyLoop cs (pre ++ zs) pre.length = pre ++ cs.flatten := by
  induction cs generalizing pre zs with
  | nil =>
    simp only [List.map_nil, List.sum_nil, List.length_eq_zero] at hz
    simp [copyLoop, hz]
  | cons c cs ih =>
    have harr : writeAt (pre ++ zs) pre.length c
        = (pre ++ c) ++ zs.drop c.length := by
      simp [writeAt, List.take_left, List.drop_append, List.append_assoc]
    have hoff : pre.length + c.length = (pre ++ c).length := by simp
    have hz' : (zs.drop c.length).length = (cs.map List.length).sum := by
      simp only [List.map_cons, List.sum_cons] at hz
      simp only [List.length_drop]; omega
    calc copyLoop (c :: cs) (pre ++ zs) pre.length
        = copyLoop cs ((pre ++ c) ++ zs.drop c.length) (pre ++ c).length := by
          rw [copyLoop, harr, hoff]
      _ = (pre ++ c) ++ cs.flatten := ih (pre ++ c) (zs.drop c.length) hz'
      _ = pre ++ (c :: cs).flatten := by simp

/-- The allocate-and-copy concatenation is exact byte concatenation. -/
theorem concatBytes_eq_flatten (chunks : List (List Nat)) :
    concatBytes chunks = chunks.flatten := by
  have h := copyLoop_spec chunks []
    (List.replicate ((chunks.map List.length).sum) 0) (by simp)
  simpa [concatBytes] using h

/-! ## Lemmas about trimming and segmentation -/

theorem dropWhile_head?_not (p : Char → Bool) (l : List Char) (a : Char)
    (h : (l.dropWhile p).head? = some a) : p a = false := by
  induction l with
  | nil => simp at h
  | cons x xs ih =>
    by_cases hp : p x = true
    · rw [List.dropWhile_cons_of_pos hp] at h; exact ih h
    · rw [List.dropWhile_cons_of_neg hp] at h
      simp only [List.head?_cons, Option.some.injEq] at h
      rw [← h]; simpa using hp

theorem jsTrimL_head?_not (l : List Char) (a : Char)
    (h : (jsTrimL l).head? = some a) : isJsWhitespace a = false := by
  obtain ⟨r, hr⟩ : jsTrimL l <+: l.dropWhile isJsWhitespace :=
    List.rdropWhile_prefix _ _
  rcases hem : jsTrimL l with _ | ⟨b, t⟩
  · rw [hem] at h; simp at h
  · rw [hem] at h
    simp only [List.head?_cons, Option.some.injEq] at h
    rw [hem] at hr
    apply dropWhile_head?_not isJsWhitespace l a
    rw [← hr, ← h]
    simp

/-- JS `trim` is idempotent. -/
theorem jsTrimL_idem (l : List Char) : jsTrimL (jsTrimL l) = jsTrimL l := by
  have h1 : (jsTrimL l).dropWhile isJsWhitespace = jsTrimL l := by
    rcases hem : jsTrimL l with _ | ⟨a, t⟩
    · simp
    · have ha := jsTrimL_head?_not l a (by rw [hem]; simp)
      rw [List.dropWhile_cons_of_neg (by simp [ha])]
  show ((jsTrimL l).dropWhile isJsWhitespace).rdropWhile isJsWhitespace
      = jsTrimL l
  rw [h1]
  exact List.rdropWhile_idempotent _ _

/-- A line accepted by the persona regex names one of the two personas and
carries a trimmed text. -/
theorem lineToSegment_shape (cs : List Char) (seg : Segment)
    (h : lineToSegment cs = some seg) :
    (seg.speaker = "Maya" ∨ seg.speaker = "Jordan") ∧
      ∃ t, seg.text = String.mk (jsTrimL t) := by
  unfold lineToSegment at h
  unfold personaHead at h
  by_cases h5 : cs.take 5 = "Maya:".data
  · rw [if_pos h5] at h
    dsimp only at h
    rcases hmt : matchTail (cs.drop 5) with _ | t
    · rw [hmt] at h; simp at h
    · rw [hmt] at h
      simp only [Option.some.injEq] at h
      subst h
      exact ⟨Or.inl rfl, t, rfl⟩
  · rw [if_neg h5] at h
    by_cases h7 : cs.take 7 = "Jordan:".data
    · rw [if_pos h7] at h
      dsimp only at h
      rcases hmt : matchTail (cs.drop 7) with _ | t
      · rw [hmt] at h; simp at h
      · rw [hmt] at h
        simp only [Option.some.injEq] at h
        subst h
        exact ⟨Or.inr rfl, t, rfl⟩
    · rw [if_neg h7] at h; simp at h

/-- Every segment returned by `parseScriptSegments` has one of the two
personas as speaker and a text invariant under JS `trim`. -/
theorem parseScriptSegments_mem_shape (s : String) (seg : Segment)
    (h : seg ∈ parseScriptSegments s) :
    (seg.speaker = "Maya" ∨ seg.speaker = "Jordan") ∧
      jsTrim seg.text = seg.text := by
  unfold parseScriptSegments parseScriptSegmentsL at h
  rw [List.mem_filterMap] at h
  obtain ⟨l, _, hls⟩ := h
  obtain ⟨hsp, t, ht⟩ := lineToSegment_shape l seg hls
  refine ⟨hsp, ?_⟩
  rw [ht]
  show String.mk (jsTrimL (jsTrimL t)) = String.mk (jsTrimL t)
  rw [jsTrimL_idem]

/-! ## Round-trip: scripts assembled from `Persona: text` lines -/

/-- One line `Persona: text` of a synthetic script. -/
def lineOfPair (pt : String × String) : List Char :=
  pt.1.data ++ ':' :: ' ' :: pt.2.data

/-- Character list of a synthetic script: the lines joined with `"\n"`. -/
def joinScriptL (pairs : List (String × String)) : List Char :=
  List.intercalate ['\n'] (pairs.map lineOfPair)

/-- A synthetic script built by joining `Persona: text` lines with newlines. -/
def joinScript (pairs : List (String × String)) : String :=
  String.mk (joinScriptL pairs)

/-- A list invariant under leading `dropWhile` once it is invariant under the
whole trim. -/
theorem dropWhile_eq_self_of_trimmed (d : List Char) (h : jsTrimL d = d) :
    d.dropWhile isJsWhitespace = d := by
  have hsub : List.Sublist (d.dropWhile isJsWhitespace) d :=
    (List.dropWhile_suffix _).sublist
  have h1 : (jsTrimL d).length ≤ (d.dropWhile isJsWhitespace).length :=
    (List.rdropWhile_prefix _ _).length_le
  rw [h] at h1
  exact hsub.eq_of_length (le_antisymm hsub.length_le h1)

/-- A list containing any non-whitespace character has a non-empty trim. -/
theorem jsTrimL_ne_nil_of_mem (l : List Char) (c : Char) (hc : c ∈ l)
    (hw : isJsWhitespace c = false) : jsTrimL l ≠ [] := by
  unfold jsTrimL
  rw [Ne, List.rdropWhile_eq_nil_iff]
  push_neg
  refine ⟨c, ?_, by simp [hw]⟩
  have hsplit : l.takeWhile isJsWhitespace ++ l.dropWhile isJsWhitespace = l :=
    List.takeWhile_append_dropWhile isJsWhitespace l
  rw [← hsplit] at hc
  rcases List.mem_append.mp hc with h1 | h2
  · exact absurd (List.mem_takeWhile_imp h1) (by simp [hw])
  · exact h2

theorem personaHead_pair (p : String) (t : List Char)
    (hp : p = "Maya" ∨ p = "Jordan") :
    personaHead (p.data ++ ':' :: ' ' :: t) = some (p, ' ' :: t) := by
  rcases hp with h | h <;> subst h <;> rfl

theorem matchTail_space (t : List Char) (hne : t ≠ [])
    (htr : jsTrimL t = t)
    (hlt : t.all (fun c => !(isLineTerminator c)) = true) :
    matchTail (' ' :: t) = some t := by
  have hdw : (' ' :: t).dropWhile isJsWhitespace = t := by
    rw [List.dropWhile_cons_of_pos (by decide)]
    exact dropWhile_eq_self_of_trimmed t htr
  unfold matchTail
  simp only [hdw]
  rw [if_neg (by simp [hne]), if_pos hlt]

/-- A well-formed `Persona: text` line is recovered as exactly that turn. -/
theorem lineToSegment_pair (p t : String)
    (hp : p = "Maya" ∨ p = "Jordan") (hne : t ≠ "")
    (htr : jsTrim t = t)
    (hlt : t.data.all (fun c => !(isLineTerminator c)) = true) :
    lineToSegment (lineOfPair (p, t)) = some ⟨p, t⟩ := by
  have hdne : t.data ≠ [] := by
    intro hd
    exact hne (String.ext hd)
  have htrL : jsTrimL t.data = t.data := by
    have := congrArg String.data htr
    exact this
  unfold lineToSegment lineOfPair
  rw [personaHead_pair p t.data hp]
  dsimp only
  rw [matchTail_space t.data hdne htrL hlt]
  dsimp only
  rw [show String.mk (jsTrimL t.data) = t from htr]

theorem filterMap_congr_map {α β γ : Type} (f : β → Option γ) (g : α → β)
    (h : α → γ) (l : List α) (hl : ∀ a ∈ l, f (g a) = some (h a)) :
    (l.map g).filterMap f = l.map h := by
  induction l with
  | nil => rfl
  | cons a l ih =>
    simp only [List.map_cons, List.filterMap_cons, hl a (by simp)]
    rw [ih (fun b hb => hl b (by simp [hb]))]

theorem newline_not_mem_lineOfPair (pt : String × String)
    (hp : pt.1 = "Maya" ∨ pt.1 = "Jordan")
    (hlt : pt.2.data.all (fun c => !(isLineTerminator c)) = true) :
    '\n' ∉ lineOfPair pt := by
  intro hmem
  unfold lineOfPair at hmem
  rcases List.mem_append.mp hmem with h1 | h2
  · rcases hp with h | h <;> rw [h] at h1 <;> exact absurd h1 (by decide)
  · simp only [List.mem_cons] at h2
    rcases h2 with h | h | h
    · exact absurd h (by decide)
    · exact absurd h (by decide)
    · have := List.all_eq_true.mp hlt '\n' h
      simp [isLineTerminator] at this

/-- C8 (amended): round-trip for well-formed synthetic scripts — joining
`Persona: text` lines with newlines and re-parsing recovers exactly the
original turns in order, provided every persona is one of the two configured
names and every text is non-empty, invariant under trim, and free of line
terminators (without trim-invariance the recovered text is the trimmed one,
see the counterexample). -/
theorem parse_joinScript (pairs : List (String × String))
    (h : ∀ pt ∈ pairs, (pt.1 = "Maya" ∨ pt.1 = "Jordan") ∧ pt.2 ≠ "" ∧
      jsTrim pt.2 = pt.2 ∧
      pt.2.data.all (fun c => !(isLineTerminator c)) = true) :
    parseScriptSegments (joinScript pairs)
      = pairs.map (fun pt => ⟨pt.1, pt.2⟩) := by
  rcases pairs with _ | ⟨pt0, rest⟩
  · decide
  · show parseScriptSegmentsL (joinScriptL (pt0 :: rest)) = _
    unfold parseScriptSegmentsL joinScriptL
    rw [List.splitOn_intercalate _ '\n'
      (by
        intro l hl
        rw [List.mem_map] at hl
        obtain ⟨pt, hpt, rfl⟩ := hl
        exact newline_not_mem_lineOfPair pt (h pt hpt).1 (h pt hpt).2.2.2)
      (by simp)]
    rw [List.filter_eq_self.mpr
      (by
        intro l hl
        rw [List.mem_map] at hl
        obtain ⟨pt, hpt, rfl⟩ := hl
        have hne : jsTrimL (lineOfPair pt) ≠ [] :=
          jsTrimL_ne_nil_of_mem (lineOfPair pt) ':'
            (by
              unfold lineOfPair
              exact List.mem_append.mpr (Or.inr (List.mem_cons_self _ _)))
            (by decide)
        simpa [List.isEmpty_iff] using hne)]
    exact filterMap_congr_map lineToSegment lineOfPair
      (fun pt => ⟨pt.1, pt.2⟩) (pt0 :: rest)
      (by
        intro pt hpt
        obtain ⟨hp, hne, htr, hlt⟩ := h pt hpt
        exact lineToSegment_pair pt.1 pt.2 hp hne htr hlt)

/-! ## Lemmas about the pipeline state machine -/

theorem synthAll_ok_all (env : Env) (k : Nat) (segs : List Segment)
    (chunks : List (List Nat)) (h : synthAll env k segs = .ok chunks) :
    ∀ i < segs.length, (env.ttsChunks (k + i)).isOk = true := by
  induction segs generalizing k chunks with
  | nil => intro i hi; simp at hi
  | cons seg rest ih =>
    intro i hi
    rcases htts : env.ttsChunks k with e | v
    · rw [synthAll, htts] at h; cases h
    · rw [synthAll, htts] at h
      rcases hrest : synthAll env (k + 1) rest with e | tail
      · rw [hrest] at h; cases h
      · rcases i with _ | j
        · simp [htts, Except.isOk, Except.toBool]
        · have := ih (k + 1) tail hrest j (by simpa using hi)
          simpa [Nat.add_comm, Nat.add_assoc, Nat.add_left_comm] using this

theorem synthAll_error_of_fail (env : Env) (k : Nat) (segs : List Segment)
    (i : Nat) (hi : i < segs.length)
    (hf : (env.ttsChunks (k + i)).isOk = false) :
    ∃ e, synthAll env k segs = .error e := by
  induction segs generalizing k i with
  | nil => simp at hi
  | cons seg rest ih =>
    rcases htts : env.ttsChunks k with e | v
    · exact ⟨e, by rw [synthAll, htts]⟩
    · rcases i with _ | j
      · rw [Nat.add_zero, htts] at hf
        simp [Except.isOk, Except.toBool] at hf
      · obtain ⟨e, he⟩ := ih (k + 1) j (by simpa using hi)
          (by simpa [Nat.add_comm, Nat.add_assoc, Nat.add_left_comm] using hf)
        exact ⟨e, by rw [synthAll, htts, he]⟩

/-- Dichotomy for `generatePodcastAudio` when the failure-status write
succeeds: either everything succeeded and the completed row was written, or
the catch block wrote the failed row; in both cases the call returns
normally. -/
theorem gpa_main (env : Env) (episodeId : String) (w : World) (script : String)
    (hA : env.audioFailWriteOk = true) :
    ((generatePodcastAudio env episodeId w script).2 = .ok true ∧
      (generatePodcastAudio env episodeId w script).1.episode =
        { w.episode with
          status := .completed
          audioFileKey := some (audioKeyOf episodeId)
          durationSeconds := some (estimatedDurationOf script) }) ∨
    ((generatePodcastAudio env episodeId w script).2 = .ok false ∧
      (generatePodcastAudio env episodeId w script).1.episode =
        { w.episode with status := .failed }) := by
  by_cases h0 : (parseScriptSegments script).length = 0
  · right
    constructor <;> simp [generatePodcastAudio, h0, audioFail, hA, writeEpisode]
  · rcases hsyn : synthAll env 0 (parseScriptSegments script) with e | chunks
    · right
      constructor <;>
        simp [generatePodcastAudio, h0, hsyn, audioFail, hA, writeEpisode]
    · by_cases htot : (chunks.map List.length).sum = 0
      · right
        constructor <;>
          simp [generatePodcastAudio, h0, hsyn, htot, audioFail, hA,
            writeEpisode]
      · rcases hr2 : env.r2PutOk with _ | _
        · right
          constructor <;>
            simp [generatePodcastAudio, h0, hsyn, htot, hr2, audioFail, hA,
              writeEpisode]
        · rcases hcw : env.completedWriteOk with _ | _
          · right
            constructor <;>
              simp [generatePodcastAudio, h0, hsyn, htot, hr2, hcw,
                audioFail, hA, writeEpisode]
          · left
            constructor <;>
              simp [generatePodcastAudio, h0, hsyn, htot, hr2, hcw,
                writeEpisode]

/-- A `success: true` return of `generatePodcastAudio` implies every stage
succeeded. -/
theorem gpa_ok_true_conditions (env : Env) (episodeId : String) (w : World)
    (script : String)
    (h : (generatePodcastAudio env episodeId w script).2 = .ok true) :
    (parseScriptSegments script).length ≠ 0 ∧
    (∀ i < (parseScriptSegments script).length,
      (env.ttsChunks i).isOk = true) ∧
    env.r2PutOk = true ∧ env.completedWriteOk = true := by
  have hfail : ∀ (w' : World) (m : String),
      ¬ (audioFail env w' m).2 = .ok true := by
    intro w' m
    unfold audioFail
    by_cases hA : env.audioFailWriteOk = true <;> simp [hA]
  by_cases h0 : (parseScriptSegments script).length = 0
  · have h' : (audioFail env w "No segments found in script").2 = .ok true := by
      simpa [generatePodcastAudio, h0] using h
    exact absurd h' (hfail _ _)
  · rcases hsyn : synthAll env 0 (parseScriptSegments script) with e | chunks
    · have h' : (audioFail env w e).2 = .ok true := by
        simpa [generatePodcastAudio, h0, hsyn] using h
      exact absurd h' (hfail _ _)
    · by_cases htot : (chunks.map List.length).sum = 0
      · have h' : (audioFail env w "No audio data generated").2 = .ok true := by
          simpa [generatePodcastAudio, h0, hsyn, htot] using h
        exact absurd h' (hfail _ _)
      · rcases hr2 : env.r2PutOk with _ | _
        · have h' : (audioFail env w "r2 error").2 = .ok true := by
            simpa [generatePodcastAudio, h0, hsyn, htot, hr2] using h
          exact absurd h' (hfail _ _)
        · rcases hcw : env.completedWriteOk with _ | _
          · have h' : (audioFail env
                { w with blob := some (concatBytes chunks) }
                "db error").2 = .ok true := by
              simpa [generatePodcastAudio, h0, hsyn, htot, hr2, hcw] using h
            exact absurd h' (hfail _ _)
          · refine ⟨h0, ?_, rfl, rfl⟩
            intro i hi
            simpa using synthAll_ok_all env 0 _ chunks hsyn i hi

/-- A synthesis failure on any turn makes `generatePodcastAudio` stop with
exactly one failure-status write: no blob write, no audio key, no duration. -/
theorem gpa_synthFail (env : Env) (episodeId : String) (w : World)
    (script : String) (i : Nat) (hA : env.audioFailWriteOk = true)
    (hi : i < (parseScriptSegments script).length)
    (hf : (env.ttsChunks i).isOk = false) :
    generatePodcastAudio env episodeId w script
      = (writeEpisode w { w.episode with status := .failed }, .ok false) := by
  have h0 : ¬ (parseScriptSegments script).length = 0 := by omega
  obtain ⟨e, hsyn⟩ := synthAll_error_of_fail env 0 _ i hi (by simpa using hf)
  simp [generatePodcastAudio, h0, hsyn, audioFail, hA]

/-- The function `generatePodcastAudio` only throws out of its catch
block, in which case
neither the episode row nor the write log has changed. -/
theorem gpa_error_world (env : Env) (episodeId : String) (w : World)
    (script : String) (e : String)
    (he : (generatePodcastAudio env episodeId w script).2 = .error e) :
    (generatePodcastAudio env episodeId w script).1.episode = w.episode ∧
    (generatePodcastAudio env episodeId w script).1.history = w.history := by
  by_cases hA : env.audioFailWriteOk = true
  · rcases gpa_main env episodeId w script hA with ⟨h2, _⟩ | ⟨h2, _⟩ <;>
      rw [he] at h2 <;> simp at h2
  · have hA' : env.audioFailWriteOk = false := by simpa using hA
    by_cases h0 : (parseScriptSegments script).length = 0
    · constructor <;> simp [generatePodcastAudio, h0, audioFail, hA']
    · rcases hsyn : synthAll env 0 (parseScriptSegments script) with e' | chunks
      · constructor <;>
          simp [generatePodcastAudio, h0, hsyn, audioFail, hA']
      · by_cases htot : (chunks.map List.length).sum = 0
        · constructor <;>
            simp [generatePodcastAudio, h0, hsyn, htot, audioFail, hA']
        · rcases hr2 : env.r2PutOk with _ | _
          · constructor <;>
              simp [generatePodcastAudio, h0, hsyn, htot, hr2, audioFail, hA']
          · rcases hcw : env.completedWriteOk with _ | _
            · constructor <;>
                simp [generatePodcastAudio, h0, hsyn, htot, hr2, hcw,
                  audioFail, hA']
            · exfalso
              simp [generatePodcastAudio, h0, hsyn, htot, hr2, hcw] at he

/-- Reduction of `generatePodcastScript` when the AI call and the script
write succeed and `generatePodcastAudio` returns normally: the audio
result is ignored and `success: true` is returned. -/
theorem gps_eq_of_gpa (env : Env) (episodeId : String) (w : World)
    (resp : Option String) (w2 : World) (r : Bool)
    (hai : env.aiResult = .ok resp) (hSw : env.scriptWriteOk = true)
    (hgpa : generatePodcastAudio env episodeId
        (writeEpisode w { w.episode with script := scriptOfResp resp })
        (scriptOfResp resp) = (w2, .ok r)) :
    generatePodcastScript env episodeId w = (w2, .ok true) := by
  simp [generatePodcastScript, hai, hSw, hgpa]

/-- Reduction of `submitGeneration` when the generation-request insert
succeeds and `generatePodcastScript` returns normally. -/
theorem submit_eq_of_gps (env : Env) (episodeId : String) (args : SubmitArgs)
    (w1 : World) (b : Bool) (hGen : env.genReqInsertOk = true)
    (hgps : generatePodcastScript env episodeId (initWorld args)
      = (w1, .ok b)) :
    submitGeneration env episodeId args = (w1,
      .payload episodeId (if b then "completed" else "failed")
        (if b then "Podcast generated successfully!" else "error")
        (if b then some ("/audio/" ++ episodeId) else none)) := by
  simp [submitGeneration, hGen, hgps]

/-- The world returned by `submitGeneration` is the world returned by
`generatePodcastScript` whenever the generation-request insert succeeds. -/
theorem submit_world (env : Env) (episodeId : String) (args : SubmitArgs)
    (hGen : env.genReqInsertOk = true) :
    (submitGeneration env episodeId args).1
      = (generatePodcastScript env episodeId (initWorld args)).1 := by
  rcases hgps : generatePodcastScript env episodeId (initWorld args)
    with ⟨w1, r⟩
  rcases r with e | b <;> simp [submitGeneration, hGen, hgps]

/-- When both failure-status writes succeed, `generatePodcastScript` leaves
the episode in a terminal status. -/
theorem gps_terminal (env : Env) (episodeId : String) (w : World)
    (hS : env.scriptFailWriteOk = true) (hA : env.audioFailWriteOk = true) :
    (generatePodcastScript env episodeId w).1.episode.status = .completed ∨
    (generatePodcastScript env episodeId w).1.episode.status = .failed := by
  rcases hai : env.aiResult with e | resp
  · right
    simp [generatePodcastScript, hai, hS, writeEpisode]
  · by_cases hSw : env.scriptWriteOk = true
    · rcases hgpa : generatePodcastAudio env episodeId
        (writeEpisode w { w.episode with script := scriptOfResp resp })
        (scriptOfResp resp) with ⟨w2, r⟩
      rcases gpa_main env episodeId
        (writeEpisode w { w.episode with script := scriptOfResp resp })
        (scriptOfResp resp) hA with ⟨h2, hep⟩ | ⟨h2, hep⟩ <;>
        rw [hgpa] at h2 hep <;> dsimp only at h2 hep <;> subst h2
      · left
        have := gps_eq_of_gpa env episodeId w resp w2 true hai hSw hgpa
        rw [this, hep]
      · right
        have := gps_eq_of_gpa env episodeId w resp w2 false hai hSw hgpa
        rw [this, hep]
    · right
      have hSw2 : env.scriptWriteOk = false := by simpa using hSw
      simp [generatePodcastScript, hai, hSw2, hS, writeEpisode]

/-- Terminal status at the tool boundary, provided the generation-request
insert and both failure-status writes succeed. -/
theorem submit_terminal (env : Env) (episodeId : String) (args : SubmitArgs)
    (hGen : env.genReqInsertOk = true) (hS : env.scriptFailWriteOk = true)
    (hA : env.audioFailWriteOk = true) :
    (submitGeneration env episodeId args).1.episode.status = .completed ∨
    (submitGeneration env episodeId args).1.episode.status = .failed := by
  rw [submit_world env episodeId args hGen]
  exact gps_terminal env episodeId (initWorld args) hS hA

/-- When the AI call succeeds, the script write succeeds, and any later
stage fails (no parseable segments, a synthesis failure, a blob-store
failure or a failing completed-status write), `generatePodcastScript` still
returns `success: true` while the episode row records `failed`. -/
theorem gps_mismatch (env : Env) (episodeId : String) (w : World)
    (resp : Option String)
    (hai : env.aiResult = .ok resp) (hSw : env.scriptWriteOk = true)
    (hA : env.audioFailWriteOk = true)
    (hfail : (parseScriptSegments (scriptOfResp resp)).length = 0 ∨
      (∃ i < (parseScriptSegments (scriptOfResp resp)).length,
        (env.ttsChunks i).isOk = false) ∨
      env.r2PutOk = false ∨ env.completedWriteOk = false) :
    (generatePodcastScript env episodeId w).2 = .ok true ∧
    (generatePodcastScript env episodeId w).1.episode =
      { w.episode with script := scriptOfResp resp, status := .failed } := by
  have hnot : ¬ (generatePodcastAudio env episodeId
      (writeEpisode w { w.episode with script := scriptOfResp resp })
      (scriptOfResp resp)).2 = .ok true := by
    intro hok
    obtain ⟨c1, c2, c3, c4⟩ := gpa_ok_true_conditions env episodeId
      (writeEpisode w { w.episode with script := scriptOfResp resp })
      (scriptOfResp resp) hok
    rcases hfail with hf | ⟨i, hi, hf⟩ | hf | hf
    · exact c1 hf
    · exact absurd (c2 i hi) (by simp [hf])
    · rw [c3] at hf; cases hf
    · rw [c4] at hf; cases hf
  rcases gpa_main env episodeId
    (writeEpisode w { w.episode with script := scriptOfResp resp })
    (scriptOfResp resp) hA with ⟨h2, _⟩ | ⟨h2, hep⟩
  · exact absurd h2 hnot
  · rcases hgpa : generatePodcastAudio env episodeId
      (writeEpisode w { w.episode with script := scriptOfResp resp })
      (scriptOfResp resp) with ⟨w2, r⟩
    rw [hgpa] at h2 hep
    dsimp only at h2 hep
    subst h2
    have hgps := gps_eq_of_gpa env episodeId w resp w2 false hai hSw hgpa
    rw [hgps]
    refine ⟨rfl, ?_⟩
    rw [hep]
    simp [writeEpisode]

/-- Exact form of `generatePodcastScript` when the generated script parses
to zero segments: the checkpoint write is followed by the audio-stage
failure write, and the call still reports success. -/
theorem gps_segfail (env : Env) (episodeId : String) (w : World)
    (resp : Option String)
    (hai : env.aiResult = .ok resp) (hSw : env.scriptWriteOk = true)
    (hA : env.audioFailWriteOk = true)
    (hseg : parseScriptSegments (scriptOfResp resp) = []) :
    generatePodcastScript env episodeId w =
      (writeEpisode
        (writeEpisode w { w.episode with script := scriptOfResp resp })
        { w.episode with script := scriptOfResp resp, status := .failed },
       .ok true) := by
  have hgpa : generatePodcastAudio env episodeId
      (writeEpisode w { w.episode with script := scriptOfResp resp })
      (scriptOfResp resp)
      = (writeEpisode
          (writeEpisode w { w.episode with script := scriptOfResp resp })
          { w.episode with script := scriptOfResp resp, status := .failed },
         .ok false) := by
    simp [generatePodcastAudio, hseg, audioFail, hA, writeEpisode]
  exact gps_eq_of_gpa env episodeId w resp _ false hai hSw hgpa

/-! ## The status/audio/duration invariant along the write log -/

theorem audioFail_history (env : Env) (w' : World) (m : String)
    (hh : ∀ e ∈ w'.history, invB e = true)
    (hak : w'.episode.audioFileKey = none)
    (hdur : w'.episode.durationSeconds = none) :
    ∀ e ∈ (audioFail env w' m).1.history, invB e = true := by
  unfold audioFail
  by_cases hA : env.audioFailWriteOk = true
  · simp only [hA, if_true, writeEpisode]
    intro e he
    rw [List.mem_append] at he
    rcases he with h | h
    · exact hh e h
    · rw [List.mem_singleton.mp h]
      simp [invB, hak, hdur]
  · simp only [hA, if_false]
    exact hh

/-- Every write performed by `generatePodcastAudio` preserves the
audio/duration/status invariant of the write log, starting from a row
without audio fields. -/
theorem gpa_history (env : Env) (episodeId : String) (w : World)
    (script : String)
    (hak : w.episode.audioFileKey = none)
    (hdur : w.episode.durationSeconds = none)
    (hh : ∀ e ∈ w.history, invB e = true) :
    ∀ e ∈ (generatePodcastAudio env episodeId w script).1.history,
      invB e = true := by
  by_cases h0 : (parseScriptSegments script).length = 0
  · intro e he
    refine audioFail_history env w "No segments found in script"
      hh hak hdur e ?_
    simpa [generatePodcastAudio, h0] using he
  · rcases hsyn : synthAll env 0 (parseScriptSegments script)
      with e' | chunks
    · intro e he
      refine audioFail_history env w e' hh hak hdur e ?_
      simpa [generatePodcastAudio, h0, hsyn] using he
    · by_cases htot : (chunks.map List.length).sum = 0
      · intro e he
        refine audioFail_history env w "No audio data generated"
          hh hak hdur e ?_
        simpa [generatePodcastAudio, h0, hsyn, htot] using he
      · rcases hr2 : env.r2PutOk with _ | _
        · intro e he
          refine audioFail_history env w "r2 error" hh hak hdur e ?_
          simpa [generatePodcastAudio, h0, hsyn, htot, hr2] using he
        · rcases hcw : env.completedWriteOk with _ | _
          · intro e he
            refine audioFail_history env
              { w with blob := some (concatBytes chunks) } "db error"
              (by simpa using hh) (by simpa using hak)
              (by simpa using hdur) e ?_
            simpa [generatePodcastAudio, h0, hsyn, htot, hr2, hcw] using he
          · intro e he
            simp [generatePodcastAudio, h0, hsyn, htot, hr2, hcw,
              writeEpisode] at he
            rcases he with h | h
            · exact hh e h
            · subst h
              simp [invB]

/-- Every write performed by `generatePodcastScript` preserves the
invariant of the write log. -/
theorem gps_history (env : Env) (episodeId : String) (w : World)
    (hst : w.episode.status = .generating)
    (hak : w.episode.audioFileKey = none)
    (hdur : w.episode.durationSeconds = none)
    (hh : ∀ e ∈ w.history, invB e = true) :
    ∀ e ∈ (generatePodcastScript env episodeId w).1.history,
      invB e = true := by
  rcases hai : env.aiResult with er | resp
  · by_cases hS : env.scriptFailWriteOk = true
    · intro e he
      simp [generatePodcastScript, hai, hS, writeEpisode] at he
      rcases he with h | h
      · exact hh e h
      · subst h
        simp [invB, hak, hdur]
    · have hS2 : env.scriptFailWriteOk = false := by simpa using hS
      intro e he
      simp only [generatePodcastScript, hai, hS2, if_false] at he
      exact hh e (by simpa using he)
  · by_cases hSw : env.scriptWriteOk = true
    · have hh1 : ∀ e ∈ (writeEpisode w
          { w.episode with script := scriptOfResp resp }).history,
          invB e = true := by
        intro e he
        simp [writeEpisode] at he
        rcases he with h | h
        · exact hh e h
        · subst h
          simp [invB, hak, hdur, hst]
      have h1 := gpa_history env episodeId
        (writeEpisode w { w.episode with script := scriptOfResp resp })
        (scriptOfResp resp) (by simp [writeEpisode, hak])
        (by simp [writeEpisode, hdur]) hh1
      rcases hgpa : generatePodcastAudio env episodeId
        (writeEpisode w { w.episode with script := scriptOfResp resp })
        (scriptOfResp resp) with ⟨w2, r⟩
      rw [hgpa] at h1
      dsimp only at h1
      rcases r with er2 | b
      · have hw2 := gpa_error_world env episodeId
          (writeEpisode w { w.episode with script := scriptOfResp resp })
          (scriptOfResp resp) er2 (by rw [hgpa])
        rw [hgpa] at hw2
        dsimp only at hw2
        by_cases hS : env.scriptFailWriteOk = true
        · intro e he
          simp only [generatePodcastScript, hai, hSw, Bool.not_true,
            if_false, hgpa, hS, if_true] at he
          simp [writeEpisode] at he
          rcases he with h | h
          · exact h1 e h
          · subst h
            rw [hw2.1]
            simp [writeEpisode, invB, hak, hdur]
        · have hS2 : env.scriptFailWriteOk = false := by simpa using hS
          intro e he
          simp only [generatePodcastScript, hai, hSw, hgpa, hS2,
            Bool.not_true, if_false] at he
          exact h1 e (by simpa using he)
      · intro e he
        simp only [generatePodcastScript, hai, hSw, hgpa,
          Bool.not_true, if_false] at he
        exact h1 e (by simpa using he)
    · have hSw2 : env.scriptWriteOk = false := by simpa using hSw
      by_cases hS : env.scriptFailWriteOk = true
      · intro e he
        simp [generatePodcastScript, hai, hSw2, hS, writeEpisode] at he
        rcases he with h | h
        · exact hh e h
        · subst h
          simp [invB, hak, hdur]
      · have hS2 : env.scriptFailWriteOk = false := by simpa using hS
        intro e he
        simp only [generatePodcastScript, hai, hSw2, hS2,
          Bool.not_false, if_true, if_false] at he
        exact hh e (by simpa using he)

/-- C6: every episode-row write performed during a `generate_podcast` call
satisfies the invariant: the audio reference and the duration are present if
and only if the written status is `completed` — creation writes `generating`
with both null, each failure write sets `failed` without touching them, and
the completed write sets all three together. -/
theorem submit_history (env : Env) (episodeId : String) (args : SubmitArgs) :
    ∀ e ∈ (submitGeneration env episodeId args).1.history,
      invB e = true := by
  have h0 : ∀ e ∈ (initWorld args).history, invB e = true := by
    intro e he
    simp only [initWorld, List.mem_singleton] at he
    rw [he]
    simp [invB, initEpisode]
  by_cases hGen : env.genReqInsertOk = true
  · rw [submit_world env episodeId args hGen]
    exact gps_history env episodeId (initWorld args) rfl rfl rfl h0
  · have hGen2 : env.genReqInsertOk = false := by simpa using hGen
    intro e he
    simp only [submitGeneration, hGen2, Bool.not_false, if_true] at he
    exact h0 e (by simpa using he)

/-! ## Claims -/

/-- C1 (counterexample): when the GenerationRequest insert fails after the
episode row has been created, `generate_podcast` returns through its outer
catch and the persisted episode status is still `generating` — not a
terminal value. -/
theorem c1_counterexample :
    (submitGeneration { envAllOk with genReqInsertOk := false }
      "ep1" sampleArgs).1.episode.status = .generating ∧
    (submitGeneration { envAllOk with genReqInsertOk := false }
      "ep1" sampleArgs).2
      = .errText "Error generating podcast: db error" := by
  exact ⟨rfl, rfl⟩

/-- C1 (amended): provided the GenerationRequest insert succeeds and the two
failure-status writes succeed, every exit of `submit_generation` leaves the
episode in a terminal status (`completed` or `failed`), never `generating`. -/
theorem c1_submit_terminal (env : Env) (episodeId : String)
    (args : SubmitArgs) (hGen : env.genReqInsertOk = true)
    (hS : env.scriptFailWriteOk = true) (hA : env.audioFailWriteOk = true) :
    (submitGeneration env episodeId args).1.episode.status = .completed ∨
    (submitGeneration env episodeId args).1.episode.status = .failed :=
  submit_terminal env episodeId args hGen hS hA

theorem c1_witness :
    envAllOk.genReqInsertOk = true ∧
    ((submitGeneration envAllOk "ep1" sampleArgs).1.episode.status
        = .completed ∨
      (submitGeneration envAllOk "ep1" sampleArgs).1.episode.status
        = .failed) :=
  ⟨rfl, c1_submit_terminal envAllOk "ep1" sampleArgs rfl rfl rfl⟩

/-- C2: when the AI text-generation call and the script write succeed but a
later stage fails (zero parseable segments, a synthesis failure on some
turn, a blob-store failure, or a failing completed-status write), the tool
payload still reports `completed` with the success message and a non-null
audio URL while the persisted episode status is `failed`. -/
theorem c2_mismatch (env : Env) (episodeId : String) (args : SubmitArgs)
    (resp : Option String) (hGen : env.genReqInsertOk = true)
    (hai : env.aiResult = .ok resp) (hSw : env.scriptWriteOk = true)
    (hA : env.audioFailWriteOk = true)
    (hfail : (parseScriptSegments (scriptOfResp resp)).length = 0 ∨
      (∃ i < (parseScriptSegments (scriptOfResp resp)).length,
        (env.ttsChunks i).isOk = false) ∨
      env.r2PutOk = false ∨ env.completedWriteOk = false) :
    (submitGeneration env episodeId args).2
      = .payload episodeId "completed" "Podcast generated successfully!"
          (some ("/audio/" ++ episodeId)) ∧
    (submitGeneration env episodeId args).1.episode.status = .failed := by
  obtain ⟨h2, hep⟩ := gps_mismatch env episodeId (initWorld args) resp
    hai hSw hA hfail
  rcases hgps : generatePodcastScript env episodeId (initWorld args)
    with ⟨w1, r⟩
  rw [hgps] at h2 hep
  dsimp only at h2 hep
  subst h2
  rw [submit_eq_of_gps env episodeId args w1 true hGen hgps]
  refine ⟨rfl, ?_⟩
  show w1.episode.status = .failed
  rw [hep]

theorem c2_witness :
    ({ envAllOk with r2PutOk := false } : Env).r2PutOk = false ∧
    (submitGeneration { envAllOk with r2PutOk := false }
      "ep1" sampleArgs).2
      = .payload "ep1" "completed" "Podcast generated successfully!"
          (some "/audio/ep1") ∧
    (submitGeneration { envAllOk with r2PutOk := false }
      "ep1" sampleArgs).1.episode.status = .failed := by
  have h := c2_mismatch { envAllOk with r2PutOk := false } "ep1" sampleArgs
    (some "Maya: hi\nJordan: yo") rfl rfl rfl rfl
    (Or.inr (Or.inr (Or.inl rfl)))
  exact ⟨rfl, h.1, h.2⟩

/-- C3 (counterexample): the line `"Maya:   "`, whose content after the
colon trims to the empty string, is NOT dropped: the regex backtracks,
captures the final space, and `parseScriptSegments` returns a turn whose
trimmed utterance is empty. -/
theorem c3_counterexample :
    parseScriptSegments "Maya:   " = [{ speaker := "Maya", text := "" }] := by
  decide

/-- C3 (amended): every turn returned by `parseScriptSegments` has persona
exactly `Maya` or `Jordan` and a trimmed utterance, and turns appear in
original line order (the parse is a single ordered pass); the utterance may
however be empty when the line's content after the colon is non-empty
whitespace — only a line with nothing at all after the colon yields no
turn. -/
theorem c3_segment_shape (s : String) (seg : Segment)
    (h : seg ∈ parseScriptSegments s) :
    (seg.speaker = "Maya" ∨ seg.speaker = "Jordan") ∧
      jsTrim seg.text = seg.text :=
  parseScriptSegments_mem_shape s seg h

theorem c3_witness :
    (⟨"Maya", "hi"⟩ : Segment) ∈ parseScriptSegments "Maya: hi" ∧
    ((Segment.mk "Maya" "hi").speaker = "Maya" ∨
      (Segment.mk "Maya" "hi").speaker = "Jordan") ∧
    jsTrim (Segment.mk "Maya" "hi").text = (Segment.mk "Maya" "hi").text :=
  ⟨by decide, c3_segment_shape "Maya: hi" ⟨"Maya", "hi"⟩ (by decide)⟩

/-- C4 (counterexample): an existing episode that is NOT completed can
receive the full script text, not the placeholder: a run whose synthesis
fails after the script checkpoint leaves status `failed` with a non-empty
persisted script, and `get_podcast_script` returns that script. -/
theorem c4_counterexample :
    (submitGeneration
      { envAllOk with ttsChunks := fun _ => .error "synthesis failed" }
      "ep1" sampleArgs).1.episode.status = .failed ∧
    getPodcastScript (some (submitGeneration
      { envAllOk with ttsChunks := fun _ => .error "synthesis failed" }
      "ep1" sampleArgs).1.episode) = .text "Maya: hi\nJordan: yo" ∧
    ScriptOut.text "Maya: hi\nJordan: yo"
      ≠ .text "Script not yet generated" := by
  refine ⟨rfl, rfl, by decide⟩

/-- C4 (amended): for an unknown episode id `get_podcast_script` reports
`Episode not found`; for an existing episode it returns a non-empty text —
the stored script when that is non-empty, and the fixed placeholder
`"Script not yet generated"` exactly when the stored script is empty (the
status is not consulted, so a non-completed episode whose checkpoint was
written gets the script, not the placeholder). -/
theorem c4_get_script :
    getPodcastScript none = .errText "Episode not found" ∧
    ∀ ep : Episode, ∃ s, getPodcastScript (some ep) = .text s ∧ s ≠ "" ∧
      (ep.script = "" → s = "Script not yet generated") ∧
      (ep.script ≠ "" → s = ep.script) := by
  refine ⟨rfl, ?_⟩
  intro ep
  by_cases h : ep.script = ""
  · exact ⟨"Script not yet generated", by simp [getPodcastScript, h],
      by decide, fun _ => rfl, fun hne => absurd h hne⟩
  · exact ⟨ep.script, by simp [getPodcastScript, h], h,
      fun he => absurd he h, fun _ => rfl⟩

theorem c4_witness :
    ∃ s, getPodcastScript (some (initEpisode sampleArgs)) = .text s ∧
      s ≠ "" ∧
      ((initEpisode sampleArgs).script = ""
        → s = "Script not yet generated") ∧
      ((initEpisode sampleArgs).script ≠ ""
        → s = (initEpisode sampleArgs).script) :=
  c4_get_script.2 (initEpisode sampleArgs)

/-- C5 (counterexample): the code computes `floor(fields / 2.5)` where
`fields = script.split(" ").length` counts empty fields; on `"a  b"`
(two spaces) the code yields `floor(3 / 2.5) = 1` while the claimed
`floor(word_count / 2.5)` with word count 2 yields 0. -/
theorem c5_counterexample :
    estimatedDurationOf "a  b" = 1 ∧ specWordCount "a  b" = 2 ∧
    specDuration "a  b" = 0 ∧
    estimatedDurationOf "a  b" ≠ specDuration "a  b" := by
  decide

/-- C5 (amended): the estimate equals `floor(word_count / 2.5)` exactly for
scripts whose space-split fields are all non-empty (single-spaced words, no
leading/trailing/double spaces) — in particular a 250-word single-spaced
script yields 100 seconds; on other scripts the code counts empty fields as
words. -/
theorem c5_duration (s : String)
    (h : ∀ f ∈ s.data.splitOn ' ', f ≠ []) :
    estimatedDurationOf s = specDuration s := by
  unfold estimatedDurationOf specDuration spaceFieldCount specWordCount
  rw [List.filter_eq_self.mpr ?_]
  intro a ha
  simpa [List.isEmpty_iff] using h a ha

theorem c5_witness :
    (∀ f ∈ script250.data.splitOn ' ', f ≠ []) ∧
    estimatedDurationOf script250 = specDuration script250 ∧
    estimatedDurationOf script250 = 100 := by
  refine ⟨by decide, c5_duration script250 (by decide), by decide⟩

theorem c6_witness : invB (initEpisode sampleArgs) = true :=
  submit_history envAllOk "ep1" sampleArgs (initEpisode sampleArgs)
    (by decide)

/-- C7: a synthesis failure on any turn aborts the episode's audio
assembly: the blob store is not written, the audio reference and duration
are unchanged (never set), the status is set to `failed`, and the audio
stage returns without storing partial audio. -/
theorem c7_synth_abort (env : Env) (episodeId : String) (w : World)
    (script : String) (i : Nat) (hA : env.audioFailWriteOk = true)
    (hi : i < (parseScriptSegments script).length)
    (hf : (env.ttsChunks i).isOk = false) :
    (generatePodcastAudio env episodeId w script).1.blob = w.blob ∧
    (generatePodcastAudio env episodeId w script).1.episode.audioFileKey
      = w.episode.audioFileKey ∧
    (generatePodcastAudio env episodeId w script).1.episode.durationSeconds
      = w.episode.durationSeconds ∧
    (generatePodcastAudio env episodeId w script).1.episode.status
      = .failed ∧
    (generatePodcastAudio env episodeId w script).2 = .ok false := by
  rw [gpa_synthFail env episodeId w script i hA hi hf]
  exact ⟨rfl, rfl, rfl, rfl, rfl⟩

theorem c7_witness :
    (0 < (parseScriptSegments "Maya: hi").length ∧
      (({ envAllOk with ttsChunks := fun _ => .error "boom" } : Env).ttsChunks
        0).isOk = false) ∧
    ((generatePodcastAudio { envAllOk with ttsChunks := fun _ => .error "boom" }
        "ep1" (initWorld sampleArgs) "Maya: hi").1.blob
      = (initWorld sampleArgs).blob ∧
    (generatePodcastAudio { envAllOk with ttsChunks := fun _ => .error "boom" }
        "ep1" (initWorld sampleArgs) "Maya: hi").1.episode.audioFileKey
      = (initWorld sampleArgs).episode.audioFileKey ∧
    (generatePodcastAudio { envAllOk with ttsChunks := fun _ => .error "boom" }
        "ep1" (initWorld sampleArgs) "Maya: hi").1.episode.durationSeconds
      = (initWorld sampleArgs).episode.durationSeconds ∧
    (generatePodcastAudio { envAllOk with ttsChunks := fun _ => .error "boom" }
        "ep1" (initWorld sampleArgs) "Maya: hi").1.episode.status
      = .failed ∧
    (generatePodcastAudio { envAllOk with ttsChunks := fun _ => .error "boom" }
        "ep1" (initWorld sampleArgs) "Maya: hi").2 = .ok false) :=
  ⟨⟨by decide, rfl⟩,
    c7_synth_abort { envAllOk with ttsChunks := fun _ => .error "boom" }
      "ep1" (initWorld sampleArgs) "Maya: hi" 0 rfl (by decide) rfl⟩

/-- C8 (counterexample): the pair `("Maya", "hi ")` has a persona in the
configured set and a text that is a single line and non-empty after
trimming, yet the round-trip does not recover it identically: the parser
trims the utterance to `"hi"`. -/
theorem c8_counterexample :
    jsTrim "hi " ≠ "" ∧
    joinScript [("Maya", "hi ")] = "Maya: hi " ∧
    parseScriptSegments (joinScript [("Maya", "hi ")])
      = [{ speaker := "Maya", text := "hi" }] ∧
    [Segment.mk "Maya" "hi"]
      ≠ [Segment.mk ("Maya", "hi ").1 ("Maya", "hi ").2] := by
  refine ⟨by decide, by decide, by decide, by decide⟩

theorem c8_witness :
    (∀ pt ∈ [("Maya", "hello"), ("Jordan", "world")],
      (pt.1 = "Maya" ∨ pt.1 = "Jordan") ∧ pt.2 ≠ "" ∧
      jsTrim pt.2 = pt.2 ∧
      pt.2.data.all (fun c => !(isLineTerminator c)) = true) ∧
    parseScriptSegments (joinScript [("Maya", "hello"), ("Jordan", "world")])
      = [⟨"Maya", "hello"⟩, ⟨"Jordan", "world"⟩] :=
  ⟨by decide, parse_joinScript [("Maya", "hello"), ("Jordan", "world")]
    (by decide)⟩

/-- C9: the audio assembler produces the exact byte concatenation of its
ordered chunks — the allocate-and-copy loop yields the flattening, whose
length is the sum of the chunk lengths — and a zero-length aggregate is
fatal (no artifact is produced). -/
theorem c9_assemble (chunks : List (List Nat)) :
    ((chunks.map List.length).sum ≠ 0 →
      assembleAudio chunks = some chunks.flatten ∧
      chunks.flatten.length = (chunks.map List.length).sum) ∧
    ((chunks.map List.length).sum = 0 → assembleAudio chunks = none) := by
  constructor
  · intro h
    constructor
    · simp [assembleAudio, h, concatBytes_eq_flatten]
    · simp [List.length_flatten]
  · intro h
    simp [assembleAudio, h]

theorem c9_witness :
    (([[1, 2], [3], [4, 5, 6]].map List.length).sum ≠ 0 ∧
      assembleAudio [[1, 2], [3], [4, 5, 6]] = some [1, 2, 3, 4, 5, 6] ∧
      [[1, 2], [3], [4, 5, 6]].flatten.length
        = (([[1, 2], [3], [4, 5, 6]] : List (List Nat)).map
            List.length).sum) ∧
    (assembleAudio ([[], []] : List (List Nat)) = none) := by
  have h := (c9_assemble [[1, 2], [3], [4, 5, 6]]).1 (by decide)
  have h2 := (c9_assemble ([[], []] : List (List Nat))).2 (by decide)
  exact ⟨⟨by decide, h.1, h.2⟩, h2⟩

/-- C10: when the AI call succeeds but the response is absent or empty, the
pipeline does not fail at the generation stage: it substitutes the literal
`"Error generating script"`, persists it as the script checkpoint (still in
`generating` status), and proceeds — that script parses to zero segments, so
the audio stage records `failed` while the tool still reports success. -/
theorem c10_empty_response (env : Env) (episodeId : String)
    (args : SubmitArgs) (hGen : env.genReqInsertOk = true)
    (hai : env.aiResult = .ok none ∨ env.aiResult = .ok (some ""))
    (hSw : env.scriptWriteOk = true) (hA : env.audioFailWriteOk = true) :
    (submitGeneration env episodeId args).2
      = .payload episodeId "completed" "Podcast generated successfully!"
          (some ("/audio/" ++ episodeId)) ∧
    (submitGeneration env episodeId args).1.episode.script
      = "Error generating script" ∧
    (submitGeneration env episodeId args).1.episode.status = .failed ∧
    (∃ e ∈ (submitGeneration env episodeId args).1.history,
      e.script = "Error generating script" ∧ e.status = .generating) := by
  have hresp : ∃ resp, env.aiResult = .ok resp ∧
      scriptOfResp resp = "Error generating script" := by
    rcases hai with h | h
    · exact ⟨none, h, rfl⟩
    · exact ⟨some "", h, rfl⟩
  obtain ⟨resp, hai2, hscr⟩ := hresp
  have hseg : parseScriptSegments (scriptOfResp resp) = [] := by
    rw [hscr]; decide
  have hgps := gps_segfail env episodeId (initWorld args) resp
    hai2 hSw hA hseg
  rw [submit_eq_of_gps env episodeId args _ true hGen hgps]
  refine ⟨rfl, ?_, ?_, ?_⟩
  · show (writeEpisode _ _).episode.script = _
    simp [writeEpisode, hscr]
  · show (writeEpisode _ _).episode.status = _
    simp [writeEpisode]
  · refine ⟨{ (initWorld args).episode with script := scriptOfResp resp },
      ?_, by simp [hscr], by simp [initWorld, initEpisode]⟩
    show _ ∈ (writeEpisode _ _).history
    simp [writeEpisode]

theorem c10_witness :
    (submitGeneration { envAllOk with aiResult := .ok none }
        "ep1" sampleArgs).2
      = .payload "ep1" "completed" "Podcast generated successfully!"
          (some "/audio/ep1") ∧
    (submitGeneration { envAllOk with aiResult := .ok none }
        "ep1" sampleArgs).1.episode.script = "Error generating script" ∧
    (submitGeneration { envAllOk with aiResult := .ok none }
        "ep1" sampleArgs).1.episode.status = .failed ∧
    (∃ e ∈ (submitGeneration { envAllOk with aiResult := .ok none }
        "ep1" sampleArgs).1.history,
      e.script = "Error generating script" ∧ e.status = .generating) := by
  have h := c10_empty_response { envAllOk with aiResult := .ok none }
    "ep1" sampleArgs rfl (Or.inl rfl) rfl rfl
  simpa using h

end Podcast
